import Mathlib

set_option maxRecDepth 4000

/-!
Shallow embedding of the remote-mocking test harness in `tests/_util.py`
(`Command`, `MockChannel`, `Session`, `MockRemote`, `mock_remote`).

Bytes values are modelled as lists of naturals, `mock` call recording is
modelled by explicit recorded-call fields, and the `repeat`/`chain`
iterators used for `side_effect` are modelled by counters into the
deterministic sequences they produce.
-/

/-- Byte strings are modelled as lists of byte values. -/
abbrev Bytes := List Nat

/-- Data record specifying params of a command execution to mock/expect
(`Command.__init__` in `tests/_util.py`). -/
structure Command where
  cmd : Option String
  out : Bytes
  err : Bytes
  in_ : Option Bytes
  exit : Int
  waits : Nat
  deriving DecidableEq

/-- Result of `Command()` with no arguments: all defaults. -/
def defaultCommand : Command :=
  { cmd := none, out := [], err := [], in_ := none, exit := 0, waits := 0 }

/-- Python truthiness of an optional string (None and the empty string are falsy). -/
def truthyStr : Option String → Bool
  | none => false
  | some s => decide (s ≠ "")

/-- Python truthiness of an optional bytes value (None and empty bytes are falsy). -/
def truthyBytes : Option Bytes → Bool
  | none => false
  | some b => decide (b ≠ [])

/-- Python truthiness of an optional int (None and 0 are falsy). -/
def truthyInt : Option Int → Bool
  | none => false
  | some k => decide (k ≠ 0)

/-- Python truthiness of an optional nonnegative count (None and 0 are falsy). -/
def truthyNat : Option Nat → Bool
  | none => false
  | some k => decide (k ≠ 0)

/-- Python truthiness of an optional command list (None and the empty list are falsy). -/
def truthyCommands : Option (List Command) → Bool
  | none => false
  | some l => decide (l ≠ [])

/-- Arguments of `Session.__init__`; each is `none` when the caller did not pass it,
mirroring the `None` defaults of the Python signature. -/
structure SessionArgs where
  host : Option String
  user : Option String
  port : Option Nat
  commands : Option (List Command)
  cmd : Option String
  out : Option Bytes
  in_ : Option Bytes
  err : Option Bytes
  exit : Option Int
  waits : Option Nat
  deriving DecidableEq

/-- Truthiness of the chained expression `cmd or out or err or exit or waits`
computed as `params` in `Session.__init__`.  Note `in_` does not participate. -/
def sessionParams (a : SessionArgs) : Bool :=
  truthyStr a.cmd || truthyBytes a.out || truthyBytes a.err ||
    truthyInt a.exit || truthyNat a.waits

/-- The `Command(**kwargs)` built from the shorthand Session arguments: each
kwarg is included when not `None`, and `Command` fills in its own defaults. -/
def commandFromKwargs (a : SessionArgs) : Command :=
  { cmd := a.cmd, out := a.out.getD [], err := a.err.getD [],
    in_ := a.in_, exit := a.exit.getD 0, waits := a.waits.getD 0 }

/-- A constructed `Session`: expected target plus the resolved command list. -/
structure Session where
  host : Option String
  user : Option String
  port : Option Nat
  commands : List Command
  deriving DecidableEq

/-- Embedding of `Session.__init__`: raises `ValueError` when `commands` and the
shorthand `params` chain are both truthy, otherwise resolves the command list
(shorthand command, explicit list, or a single default `Command()`). -/
def Session.init (a : SessionArgs) : Except String Session :=
  if truthyCommands a.commands && sessionParams a then
    .error "cannot give both commands and individual Command parameters"
  else
    let cmds1 := if sessionParams a then [commandFromKwargs a] else a.commands.getD []
    let cmds2 := if cmds1.isEmpty then [defaultCommand] else cmds1
    .ok { host := a.host, user := a.user, port := a.port, commands := cmds2 }

/-- State of one `MockChannel`: the scripted stdout/stderr buffers with read
cursors, the recorded stdin writes, the scripted exit code and
`exit_status_ready` schedule, and the recorded `exec_command` calls. -/
structure MockChannel where
  stdout : Bytes
  outPos : Nat
  stderr : Bytes
  errPos : Nat
  stdin : Bytes
  exit_status : Int
  waits : Nat
  polls : Nat
  exec_calls : List String
  deriving DecidableEq

/-- Embedding of `MockChannel.recv`: `BytesIO.read(count)` on the stdout buffer. -/
def MockChannel.recv (ch : MockChannel) (count : Nat) : Bytes × MockChannel :=
  let chunk := (ch.stdout.drop ch.outPos).take count
  (chunk, { ch with outPos := ch.outPos + chunk.length })

/-- Embedding of `MockChannel.recv_stderr`: `BytesIO.read(count)` on the stderr buffer. -/
def MockChannel.recv_stderr (ch : MockChannel) (count : Nat) : Bytes × MockChannel :=
  let chunk := (ch.stderr.drop ch.errPos).take count
  (chunk, { ch with errPos := ch.errPos + chunk.length })

/-- Embedding of `MockChannel.sendall`: append to the recorded stdin buffer. -/
def MockChannel.sendall (ch : MockChannel) (data : Bytes) : MockChannel :=
  { ch with stdin := ch.stdin ++ data }

/-- Recorded `exec_command` call on a channel mock. -/
def MockChannel.exec_command (ch : MockChannel) (c : String) : MockChannel :=
  { ch with exec_calls := ch.exec_calls ++ [c] }

/-- Embedding of `channel.exit_status_ready` with side effect
`chain(repeat(False, waits), repeat(True))`: the call made after `polls`
earlier calls returns `False` iff `polls < waits`, and bumps the counter. -/
def MockChannel.exit_status_ready (ch : MockChannel) : Bool × MockChannel :=
  (decide (ch.waits ≤ ch.polls), { ch with polls := ch.polls + 1 })

/-- Embedding of `channel.recv_exit_status` with a fixed `return_value`. -/
def MockChannel.recv_exit_status (ch : MockChannel) : Int := ch.exit_status

/-- Channel generated for one `Command` in `Session.generate_mocks`:
fresh cursors, empty stdin, scripted exit code and poll schedule. -/
def generateChannel (c : Command) : MockChannel :=
  { stdout := c.out, outPos := 0, stderr := c.err, errPos := 0, stdin := [],
    exit_status := c.exit, waits := c.waits, polls := 0, exec_calls := [] }

/-- Iterate `exit_status_ready` n times, keeping only the channel state. -/
def pollN (ch : MockChannel) : Nat → MockChannel
  | 0 => ch
  | n + 1 => ((pollN ch n).exit_status_ready).snd

/-- One recorded `client.connect` call with its keyword arguments. -/
structure ConnectCall where
  hostname : String
  username : String
  port : Nat
  deriving DecidableEq

/-- Recorded calls on one mock `SSHClient` (the transport's `open_session`
calls are recorded through `client.get_transport.return_value`). -/
structure MockClient where
  connect_calls : List ConnectCall
  get_transport_calls : Nat
  open_session_calls : Nat
  deriving DecidableEq

/-- A `Session` after `generate_mocks`: the session data plus its mock client
and the per-command channel mocks (`self.client`, `self.channels`). -/
structure SessionRun where
  session : Session
  client : MockClient
  channels : List MockChannel
  deriving DecidableEq

/-- Embedding of `Session.generate_mocks`: a fresh client mock and one
generated channel per command, in declared order. -/
def Session.generate_mocks (s : Session) : SessionRun :=
  { session := s,
    client := { connect_calls := [], get_transport_calls := 0, open_session_calls := 0 },
    channels := s.commands.map generateChannel }

/-- Embedding of `transport.open_session` with `side_effect = channels`: the
call made after k earlier calls yields the k-th generated channel, and raises
`StopIteration` once the scripted channels are exhausted. -/
def SessionRun.open_session (r : SessionRun) : Except String (MockChannel × SessionRun) :=
  match (r.session.commands.map generateChannel)[r.client.open_session_calls]? with
  | some ch => .ok (ch,
      { r with client := { r.client with
          open_session_calls := r.client.open_session_calls + 1 } })
  | none => .error "StopIteration"

/-- Matcher used for `username=self.user or ANY` and `hostname=self.host or ANY`:
a falsy expectation (None or the empty string) becomes `ANY`. -/
def strMatcher (declared : Option String) (actual : String) : Bool :=
  match declared with
  | none => true
  | some s => if s = "" then true else decide (actual = s)

/-- Matcher used for `port=self.port or ANY`: a falsy expectation
(None or 0) becomes `ANY`. -/
def portMatcher (declared : Option Nat) (actual : Nat) : Bool :=
  match declared with
  | none => true
  | some p => if p = 0 then true else decide (actual = p)

/-- Embedding of `client.connect.assert_called_once_with(...)`: exactly one
recorded connect call, whose keywords match the declared target under the
`or ANY` matchers. -/
def connect_check (s : Session) (client : MockClient) : Bool :=
  match client.connect_calls with
  | [c] => strMatcher s.user c.username && strMatcher s.host c.hostname
      && portMatcher s.port c.port
  | _ => false

/-- Embedding of `channel.exec_command.assert_called_with(command.cmd or ANY)`:
the most recent recorded call must exist and match the expected text, where a
falsy expectation (None or the empty string) becomes `ANY`. -/
def execCheck (c : Command) (ch : MockChannel) : Bool :=
  match ch.exec_calls.getLast? with
  | none => false
  | some actual =>
    match c.cmd with
    | none => true
    | some s => if s = "" then true else decide (actual = s)

/-- Embedding of `if command.in_: eq_(channel._stdin.getvalue(), command.in_)`:
the stdin comparison runs only when the expectation is truthy (set and nonempty). -/
def stdinCheck (c : Command) (ch : MockChannel) : Bool :=
  match c.in_ with
  | none => true
  | some b => if b = [] then true else decide (ch.stdin = b)

/-- The per-pair loop of `Session.sanity_check` over `zip(channels, commands)`:
assert the exec expectation, then the stdin expectation, pair by pair. -/
def checkPairs : List (MockChannel × Command) → Except String Unit
  | [] => .ok ()
  | (ch, c) :: rest =>
    if execCheck c ch then
      if stdinCheck c ch then checkPairs rest
      else .error "stdin expectation failed"
    else .error "exec expectation failed"

/-- Embedding of `Session.sanity_check`: a single `get_transport` call, a
single matching `connect` call, the per-pair exec/stdin assertions, then the
`open_session` call list compared against one empty call per zipped pair. -/
def SessionRun.sanity_check (r : SessionRun) : Except String Unit :=
  if r.client.get_transport_calls = 1 then
    if connect_check r.session r.client then
      match checkPairs (r.channels.zip r.session.commands) with
      | .error e => .error e
      | .ok _ =>
        if r.client.open_session_calls = (r.channels.zip r.session.commands).length then
          .ok ()
        else .error "open_session call count mismatch"
    else .error "connect expectation failed"
  else .error "get_transport expectation failed"

/-- State of one `MockRemote`: whether the `SSHClient` patch is installed, the
per-session generated mocks, and how many times the patched constructor ran. -/
structure RemoteState where
  patched : Bool
  sessions : List SessionRun
  client_calls : Nat
  deriving DecidableEq

/-- Embedding of `MockRemote.start`: install the patch, generate every
session's mocks in order, and return the flattened channel list. -/
def MockRemote.start (sessions : List Session) : RemoteState × List MockChannel :=
  ({ patched := true, sessions := sessions.map Session.generate_mocks, client_calls := 0 },
   (sessions.map fun s => (Session.generate_mocks s).channels).flatten)

/-- Embedding of instantiating the patched `SSHClient` with
`side_effect = clients`: the call made after k earlier calls yields the k-th
session's generated mocks, and raises `StopIteration` past the end. -/
def SSHClient_instantiate (st : RemoteState) : Except String (SessionRun × RemoteState) :=
  match st.sessions[st.client_calls]? with
  | some r => .ok (r, { st with client_calls := st.client_calls + 1 })
  | none => .error "StopIteration"

/-- The verification loop of `MockRemote.stop`: run `sanity_check` on each
session in declared order, stopping at the first assertion failure. -/
def verifyAll : List SessionRun → Except String Unit
  | [] => .ok ()
  | r :: rest =>
    match r.sanity_check with
    | .error e => .error e
    | .ok _ => verifyAll rest

/-- Embedding of `MockRemote.stop`: the patch is removed first, then the
sessions are verified in order. -/
def MockRemote.stop (st : RemoteState) : RemoteState × Except String Unit :=
  ({ st with patched := false }, verifyAll st.sessions)

/-- Session-list defaulting done by `MockRemote.__init__` when the decorator
passes an empty tuple: an empty list becomes one default `Session()`. -/
def default_sessions (sessions : List Session) : List Session :=
  if sessions.isEmpty then
    [{ host := none, user := none, port := none, commands := [defaultCommand] }]
  else sessions

/-- Embedding of the `mock_remote` decorator's wrapper: start the harness,
run the body on the injected channels (the body may finish or raise), and in
a `finally` block stop the harness; an assertion failure from `stop` masks a
body error, otherwise the body's outcome propagates. -/
def mock_remote_run (sessions : List Session)
    (body : List MockChannel → RemoteState → RemoteState × Except String Unit) :
    RemoteState × Except String Unit :=
  let started := MockRemote.start (default_sessions sessions)
  let ran := body started.snd started.fst
  let stopped := MockRemote.stop ran.fst
  (stopped.fst,
   match stopped.snd with
   | .error e => .error e
   | .ok _ => ran.snd)

/-- Demo command passing every expectation trivially. -/
def okCommand : Command := defaultCommand

/-- Demo channel whose exec mock has been called once. -/
def okChannel : MockChannel :=
  { stdout := [], outPos := 0, stderr := [], errPos := 0, stdin := [],
    exit_status := 0, waits := 0, polls := 0, exec_calls := ["x"] }

/-- Demo client recording one connect, one transport fetch and one channel open. -/
def okClient : MockClient :=
  { connect_calls := [{ hostname := "h", username := "u", port := 22 }],
    get_transport_calls := 1, open_session_calls := 1 }

/-- Demo session run that passes `sanity_check`. -/
def okRun : SessionRun :=
  { session := { host := none, user := none, port := none, commands := [okCommand] },
    client := okClient, channels := [okChannel] }

/-- Fixture arguments for C1: an explicit command list together with a set
(and nonempty) `in_` shorthand field. -/
def c1args : SessionArgs :=
  { host := none, user := none, port := none, commands := some [defaultCommand],
    cmd := none, out := none, in_ := some [120], err := none, exit := none, waits := none }

/-- Fixture run for C5: declared-but-falsy target fields (empty host and user,
port 0) with a connect call to a completely different target. -/
def c5run : SessionRun :=
  { session := { host := some "", user := some "", port := some 0, commands := [okCommand] },
    client := { connect_calls := [{ hostname := "evil", username := "eve", port := 99 }],
                get_transport_calls := 1, open_session_calls := 1 },
    channels := [okChannel] }

/-- Fixture run for the C5 witness: a declared nonempty host with a connect
call to a different hostname. -/
def c5wRun : SessionRun :=
  { session := { host := some "h", user := none, port := none, commands := [okCommand] },
    client := { connect_calls := [{ hostname := "z", username := "u", port := 22 }],
                get_transport_calls := 1, open_session_calls := 1 },
    channels := [okChannel] }

/-- Fixture command for C6: expected stdin set to the empty byte string. -/
def c6cmd : Command :=
  { cmd := some "cat", out := [], err := [], in_ := some [], exit := 0, waits := 0 }

/-- Fixture channel for C6: a nonempty recorded stdin buffer. -/
def c6chan : MockChannel :=
  { stdout := [], outPos := 0, stderr := [], errPos := 0, stdin := [97, 98],
    exit_status := 0, waits := 0, polls := 0, exec_calls := ["cat"] }

/-- Fixture run for C6 pairing `c6cmd` with `c6chan`. -/
def c6run : SessionRun :=
  { session := { host := none, user := none, port := none, commands := [c6cmd] },
    client := okClient, channels := [c6chan] }

/-- Fixture command for C10: expected stdin set to the empty byte string. -/
def c10cmd : Command :=
  { cmd := none, out := [], err := [], in_ := some [], exit := 0, waits := 0 }

/-- Fixture run family for C10: the recorded stdin buffer is an arbitrary
byte string while the expected stdin is the empty byte string. -/
def c10run (b : Bytes) : SessionRun :=
  { session := { host := none, user := none, port := none, commands := [c10cmd] },
    client := okClient, channels := [{ okChannel with stdin := b }] }

/-- Fixture run failing `sanity_check` at the transport-count assertion. -/
def badRun : SessionRun :=
  { session := { host := none, user := none, port := none, commands := [okCommand] },
    client := { connect_calls := [], get_transport_calls := 0, open_session_calls := 0 },
    channels := [okChannel] }

/-- Fixture channel for the C7 witness: stdout already fully consumed. -/
def ch7 : MockChannel :=
  { stdout := [1, 2], outPos := 2, stderr := [], errPos := 0, stdin := [],
    exit_status := 0, waits := 0, polls := 0, exec_calls := [] }

/-- Fixture session for witnesses: one default command, no target expectations. -/
def sA : Session := { host := none, user := none, port := none, commands := [okCommand] }

/-- Fixture session for witnesses: a host expectation and a nontrivial command. -/
def sB : Session :=
  { host := some "h", user := none, port := none,
    commands := [{ cmd := none, out := [97], err := [], in_ := none, exit := 1, waits := 2 }] }

/-- Fixture harness state for the C8 witness: the state right after
`MockRemote.start [sA, sB]`. -/
def st8 : RemoteState :=
  { patched := true, sessions := [sA, sB].map Session.generate_mocks, client_calls := 0 }

/-- Fixture post-body harness state for the C4 witness: one session whose
recorded calls pass verification. -/
def st4post : RemoteState := { patched := true, sessions := [okRun], client_calls := 1 }

/-- Fixture body for the C4 witness: leaves a verifiable state behind and
raises an exception. -/
def body4 : List MockChannel → RemoteState → RemoteState × Except String Unit :=
  fun _ _ => (st4post, .error "boom")

/-- Polling only bumps the poll counter; every other channel field is kept. -/
theorem pollN_eq (ch : MockChannel) (n : Nat) :
    pollN ch n = { ch with polls := ch.polls + n } := by
  induction n with
  | zero => rfl
  | succ k ih => simp [pollN, ih, MockChannel.exit_status_ready, Nat.add_assoc]

/-- The pair loop of `sanity_check` succeeds iff every zipped pair passes both
the exec expectation and the stdin expectation. -/
theorem checkPairs_ok_iff (l : List (MockChannel × Command)) :
    checkPairs l = .ok () ↔
      ∀ p ∈ l, execCheck p.2 p.1 = true ∧ stdinCheck p.2 p.1 = true := by
  induction l with
  | nil => simp [checkPairs]
  | cons hd tl ih =>
    obtain ⟨ch, c⟩ := hd
    by_cases h1 : execCheck c ch = true
    · by_cases h2 : stdinCheck c ch = true
      · simp [checkPairs, h1, h2, ih]
      · simp [checkPairs, h1, h2]
    · simp [checkPairs, h1]

/-- Characterization of `sanity_check` success as the conjunction of its four
assertion groups, in the order the source performs them. -/
theorem sanity_check_ok_iff (r : SessionRun) :
    r.sanity_check = .ok () ↔
      (r.client.get_transport_calls = 1 ∧ connect_check r.session r.client = true
       ∧ checkPairs (r.channels.zip r.session.commands) = .ok ()
       ∧ r.client.open_session_calls = (r.channels.zip r.session.commands).length) := by
  unfold SessionRun.sanity_check
  by_cases h1 : r.client.get_transport_calls = 1
  · by_cases h2 : connect_check r.session r.client = true
    · cases hp : checkPairs (r.channels.zip r.session.commands) with
      | error e => simp [h1, h2, hp]
      | ok u =>
        cases u
        by_cases h4 : r.client.open_session_calls = (r.channels.zip r.session.commands).length
        · simp [h1, h2, hp, h4]
        · simp [h1, h2, hp, h4]
    · simp [h1, h2]
  · simp [h1]

/-- C2: for a channel generated from a Command with `waits = k`, the
`exit_status_ready` call made after i earlier calls returns `False` exactly
when `i < k` (so the first k calls are `False` and all later calls `True`),
and `recv_exit_status` returns the configured exit code after any number of
polls. -/
theorem C2_exit_status_polling (c : Command) (i : Nat) :
    ((pollN (generateChannel c) i).exit_status_ready).fst = decide (c.waits ≤ i)
    ∧ (pollN (generateChannel c) i).recv_exit_status = c.exit := by
  constructor
  · simp [pollN_eq, MockChannel.exit_status_ready, generateChannel]
  · simp [pollN_eq, MockChannel.recv_exit_status, generateChannel]

/-- C7: `recv` and `recv_stderr` return at most the requested count, never
more than the unread remainder of their buffer, advance their cursor by
exactly the number of bytes returned, keep the buffer itself intact, and
return the empty result whenever the buffer is already exhausted. -/
theorem C7_recv_bounds (ch : MockChannel) (n : Nat) :
    ((ch.recv n).fst).length ≤ n
    ∧ ((ch.recv n).fst).length ≤ ch.stdout.length - ch.outPos
    ∧ (ch.recv n).snd.outPos = ch.outPos + ((ch.recv n).fst).length
    ∧ (ch.recv n).snd.stdout = ch.stdout
    ∧ (ch.stdout.length ≤ ch.outPos → (ch.recv n).fst = [])
    ∧ ((ch.recv_stderr n).fst).length ≤ n
    ∧ ((ch.recv_stderr n).fst).length ≤ ch.stderr.length - ch.errPos
    ∧ (ch.recv_stderr n).snd.errPos = ch.errPos + ((ch.recv_stderr n).fst).length
    ∧ (ch.recv_stderr n).snd.stderr = ch.stderr
    ∧ (ch.stderr.length ≤ ch.errPos → (ch.recv_stderr n).fst = []) := by
  refine ⟨?_, ?_, rfl, rfl, ?_, ?_, ?_, rfl, rfl, ?_⟩
  · simp [MockChannel.recv]
  · simp [MockChannel.recv]
  · intro h
    simp [MockChannel.recv, List.drop_eq_nil_of_le h]
  · simp [MockChannel.recv_stderr]
  · simp [MockChannel.recv_stderr]
  · intro h
    simp [MockChannel.recv_stderr, List.drop_eq_nil_of_le h]

/-- C7 witness: on a channel whose stdout is exhausted, a large read returns
the empty byte string. -/
theorem C7_recv_bounds_witness :
    ch7.stdout.length ≤ ch7.outPos ∧ (ch7.recv 5).fst = [] :=
  ⟨by decide, (C7_recv_bounds ch7 5).2.2.2.2.1 (by decide)⟩

/-- C1 counterexample: a `Session` constructed with both an explicit
`commands` list and the shorthand field `in_` set to a nonempty byte string
does not raise; construction succeeds, refuting the claim that the error is
raised for every shorthand field and every value. -/
theorem C1_counterexample :
    c1args.commands = some [defaultCommand] ∧ c1args.in_ = some [120]
    ∧ Session.init c1args
        = .ok { host := none, user := none, port := none, commands := [defaultCommand] } :=
  ⟨rfl, rfl, rfl⟩

/-- C1 amended: construction raises the configuration error exactly when the
`commands` argument is truthy (a nonempty list) and the chain
`cmd or out or err or exit or waits` is truthy; `in_` never participates, and
falsy shorthand values never trigger the error. -/
theorem C1_commands_vs_params (a : SessionArgs) :
    Session.init a = .error "cannot give both commands and individual Command parameters"
      ↔ (truthyCommands a.commands = true ∧ sessionParams a = true) := by
  unfold Session.init
  by_cases h : (truthyCommands a.commands && sessionParams a) = true
  · rw [if_pos h]
    simp only [Bool.and_eq_true] at h
    simp [h]
  · rw [if_neg h]
    simp only [Bool.and_eq_true] at h
    constructor
    · intro hx
      simp at hx
    · intro hx
      exact absurd hx h

/-- C3: a freshly generated session starts with zero `open_session` calls;
the `open_session` call made after i earlier calls yields exactly the channel
generated for the i-th declared command (and `StopIteration` past the end);
each successful call advances the call counter by one on the same session;
and a run can only pass `sanity_check` if `open_session` was called exactly
once per declared command. -/
theorem C3_channel_order (s : Session) (i : Nat) (r rv : SessionRun)
    (hrs : r.session = s) (hri : r.client.open_session_calls = i)
    (hlen : rv.channels.length = rv.session.commands.length)
    (hok : rv.sanity_check = .ok ()) :
    (Session.generate_mocks s).client.open_session_calls = 0
    ∧ (r.open_session).toOption.map Prod.fst = (s.commands[i]?).map generateChannel
    ∧ (∀ ch r2, r.open_session = .ok (ch, r2) →
        r2.client.open_session_calls = i + 1 ∧ r2.session = s)
    ∧ rv.client.open_session_calls = rv.session.commands.length := by
  refine ⟨rfl, ?_, ?_, ?_⟩
  · unfold SessionRun.open_session
    rw [hrs, hri, List.getElem?_map]
    cases s.commands[i]? with
    | none => rfl
    | some c => rfl
  · intro ch r2 hopen
    unfold SessionRun.open_session at hopen
    split at hopen
    · simp only [Except.ok.injEq, Prod.mk.injEq] at hopen
      obtain ⟨hc, hr2⟩ := hopen
      subst hr2
      exact ⟨by simp [hri], by simp [hrs]⟩
    · simp at hopen
  · have h := ((sanity_check_ok_iff rv).mp hok).2.2.2
    rw [List.length_zip, hlen, min_self] at h
    exact h

/-- C3 witness: the first `open_session` on a fresh one-command session yields
the generated channel for its only command, and a concrete passing run
recorded exactly one `open_session` per command. -/
theorem C3_channel_order_witness :
    ((Session.generate_mocks sA).open_session).toOption.map Prod.fst
        = (sA.commands[0]?).map generateChannel
    ∧ okRun.client.open_session_calls = okRun.session.commands.length := by
  have h := C3_channel_order sA 0 (Session.generate_mocks sA) okRun rfl rfl rfl rfl
  exact ⟨h.2.1, h.2.2.2⟩

/-- C5 counterexample: a Session declaring falsy target values (empty host,
empty user, port 0) passes verification even though the recorded connect call
used a completely different host, user and port, refuting the claim that any
declared-value mismatch fails verification. -/
theorem C5_counterexample :
    c5run.session.host = some "" ∧ c5run.session.user = some ""
    ∧ c5run.session.port = some 0
    ∧ c5run.client.connect_calls = [{ hostname := "evil", username := "eve", port := 99 }]
    ∧ c5run.sanity_check = .ok () :=
  ⟨rfl, rfl, rfl, rfl, rfl⟩

/-- C5 amended: with exactly one recorded connect call, verification fails
whenever a truthy declared target field (nonempty host or user, nonzero port)
differs from the connected-to value, and when host, user and port are all
unset the connect expectation accepts any connected-to target. -/
theorem C5_connect_matchers (r : SessionRun) (c : ConnectCall)
    (hc : r.client.connect_calls = [c]) :
    (∀ h, r.session.host = some h → h ≠ "" → c.hostname ≠ h → r.sanity_check ≠ .ok ())
    ∧ (∀ u, r.session.user = some u → u ≠ "" → c.username ≠ u → r.sanity_check ≠ .ok ())
    ∧ (∀ p, r.session.port = some p → p ≠ 0 → c.port ≠ p → r.sanity_check ≠ .ok ())
    ∧ (r.session.host = none → r.session.user = none → r.session.port = none →
        connect_check r.session r.client = true) := by
  refine ⟨?_, ?_, ?_, ?_⟩
  · intro h hh hne hcn hok
    have hcc := ((sanity_check_ok_iff r).mp hok).2.1
    simp [connect_check, hc, strMatcher, hh, hne, hcn] at hcc
  · intro u hu hne hcn hok
    have hcc := ((sanity_check_ok_iff r).mp hok).2.1
    simp [connect_check, hc, strMatcher, hu, hne, hcn] at hcc
  · intro p hp hne hcn hok
    have hcc := ((sanity_check_ok_iff r).mp hok).2.1
    simp [connect_check, hc, portMatcher, hp, hne, hcn] at hcc
  · intro hh hu hp
    simp [connect_check, hc, strMatcher, portMatcher, hh, hu, hp]

/-- C5 witness: a session declaring host `h` is failed by verification when
the code under test connected to host `z`. -/
theorem C5_connect_matchers_witness : c5wRun.sanity_check ≠ .ok () :=
  (C5_connect_matchers c5wRun { hostname := "z", username := "u", port := 22 } rfl).1
    "h" rfl (by decide) (by decide)

/-- C6 counterexample: a Command whose expected stdin is set to the empty byte
string passes verification even though the recorded stdin buffer is nonempty
(so not equal to the expectation), refuting the claim that any set expected
stdin is compared for exact equality. -/
theorem C6_counterexample :
    c6cmd.in_ = some [] ∧ c6chan.stdin = [97, 98] ∧ c6run.sanity_check = .ok () :=
  ⟨rfl, rfl, rfl⟩

/-- C6 amended: verification succeeds only if every zipped (channel, command)
pair passes the exec expectation and the stdin expectation, and any failing
pair fails verification; the stdin expectation compares for exact equality
only when the expected stdin is set and nonempty, and the exec expectation
requires the most recent `exec_command` call to match the expected text, any
recorded call sufficing when the text is unspecified. -/
theorem C6_exec_stdin_checks (r : SessionRun) :
    (r.sanity_check = .ok () →
      ∀ p ∈ r.channels.zip r.session.commands,
        execCheck p.2 p.1 = true ∧ stdinCheck p.2 p.1 = true)
    ∧ (∀ p ∈ r.channels.zip r.session.commands,
        (execCheck p.2 p.1 = false ∨ stdinCheck p.2 p.1 = false) →
          r.sanity_check ≠ .ok ())
    ∧ (∀ (cm : Command) (ch : MockChannel) (b : Bytes), cm.in_ = some b → b ≠ [] →
        (stdinCheck cm ch = true ↔ ch.stdin = b))
    ∧ (∀ (cm : Command) (ch : MockChannel) (t : String), cm.cmd = some t → t ≠ "" →
        (execCheck cm ch = true ↔ ch.exec_calls.getLast? = some t))
    ∧ (∀ (cm : Command) (ch : MockChannel), cm.cmd = none →
        (execCheck cm ch = true ↔ ch.exec_calls ≠ [])) := by
  refine ⟨?_, ?_, ?_, ?_, ?_⟩
  · intro hok p hp
    exact ((checkPairs_ok_iff _).mp ((sanity_check_ok_iff r).mp hok).2.2.1) p hp
  · intro p hp hbad hok
    have hall := ((checkPairs_ok_iff _).mp ((sanity_check_ok_iff r).mp hok).2.2.1) p hp
    simp [hall.1, hall.2] at hbad
  · intro cm ch b hb hne
    simp [stdinCheck, hb, hne]
  · intro cm ch t hcmd hne
    cases hg : ch.exec_calls.getLast? with
    | none => simp [execCheck, hg, hcmd, hne]
    | some actual => simp [execCheck, hg, hcmd, hne]
  · intro cm ch hcmd
    cases hg : ch.exec_calls.getLast? with
    | none => simp [execCheck, hg, hcmd, List.getLast?_eq_none_iff.mp hg]
    | some actual =>
      have : ch.exec_calls ≠ [] := by
        intro hl
        rw [hl] at hg
        simp at hg
      simp [execCheck, hg, hcmd, this]

/-- C6 witness: in a concrete passing run, the zipped pair satisfies both the
exec expectation and the stdin expectation. -/
theorem C6_exec_stdin_checks_witness :
    execCheck okCommand okChannel = true ∧ stdinCheck okCommand okChannel = true :=
  ((C6_exec_stdin_checks okRun).1 rfl) (okChannel, okCommand) (by decide)

/-- C10: when a Command's expected stdin is the empty byte string, the stdin
expectation passes for every channel regardless of its recorded stdin buffer,
and a whole session run whose only command expects empty stdin passes
verification for every recorded stdin buffer, including nonempty ones. -/
theorem C10_empty_stdin_skipped (c : Command) (ch : MockChannel) (b : Bytes)
    (hin : c.in_ = some []) :
    stdinCheck c ch = true ∧ (c10run b).sanity_check = .ok () := by
  constructor
  · simp [stdinCheck, hin]
  · rfl

/-- C10 witness: expected stdin set to empty bytes, recorded stdin nonempty,
verification passes. -/
theorem C10_empty_stdin_skipped_witness :
    stdinCheck c10cmd { okChannel with stdin := [97] } = true
    ∧ (c10run [97]).sanity_check = .ok () :=
  C10_empty_stdin_skipped c10cmd { okChannel with stdin := [97] } [97] rfl

/-- C9: `stop` returns a state with the patch removed no matter how
verification goes, its verification result is the in-order session sweep, a
failing session makes the sweep fail with that failure for every possible
list of later sessions (which are therefore never verified), and a passing
session hands over to the rest of the list. -/
theorem C9_stop_failfast (st : RemoteState) (r r2 : SessionRun)
    (rest rest2 : List SessionRun) (e : String)
    (he : r.sanity_check = .error e) (hok : r2.sanity_check = .ok ()) :
    (MockRemote.stop st).fst.patched = false
    ∧ (MockRemote.stop st).snd = verifyAll st.sessions
    ∧ verifyAll (r :: rest) = .error e
    ∧ verifyAll (r2 :: rest2) = verifyAll rest2 := by
  refine ⟨rfl, rfl, ?_, ?_⟩
  · simp [verifyAll, he]
  · simp [verifyAll, hok]

/-- C9 witness: a failing first session aborts the sweep with its failure
while a later session is present, and the patch is removed in the returned
state. -/
theorem C9_stop_failfast_witness :
    verifyAll [badRun, okRun] = .error "get_transport expectation failed"
    ∧ (MockRemote.stop st4post).fst.patched = false := by
  have h := C9_stop_failfast st4post badRun okRun [okRun] []
    "get_transport expectation failed" rfl rfl
  exact ⟨h.2.2.1, h.1⟩

/-- C4: the decorator wrapper always ends in the stopped state: the patch is
removed whatever the body did, the final state is exactly the state `stop`
produced from the post-body state, a verification failure surfaces, and when
verification passes a body exception propagates unchanged. -/
theorem C4_finally_teardown (sessions : List Session)
    (body : List MockChannel → RemoteState → RemoteState × Except String Unit) :
    (mock_remote_run sessions body).fst.patched = false
    ∧ (mock_remote_run sessions body).fst
        = (MockRemote.stop (body (MockRemote.start (default_sessions sessions)).snd
            (MockRemote.start (default_sessions sessions)).fst).fst).fst
    ∧ (∀ e, (MockRemote.stop (body (MockRemote.start (default_sessions sessions)).snd
            (MockRemote.start (default_sessions sessions)).fst).fst).snd = .error e →
        (mock_remote_run sessions body).snd = .error e)
    ∧ (∀ e, (body (MockRemote.start (default_sessions sessions)).snd
            (MockRemote.start (default_sessions sessions)).fst).snd = .error e →
        (MockRemote.stop (body (MockRemote.start (default_sessions sessions)).snd
            (MockRemote.start (default_sessions sessions)).fst).fst).snd = .ok () →
        (mock_remote_run sessions body).snd = .error e) := by
  have hsnd : (mock_remote_run sessions body).snd
      = (match (MockRemote.stop (body (MockRemote.start (default_sessions sessions)).snd
            (MockRemote.start (default_sessions sessions)).fst).fst).snd with
         | .error e2 => .error e2
         | .ok _ => (body (MockRemote.start (default_sessions sessions)).snd
            (MockRemote.start (default_sessions sessions)).fst).snd) := rfl
  refine ⟨rfl, rfl, ?_, ?_⟩
  · intro e he
    rw [hsnd, he]
  · intro e he hok
    rw [hsnd, hok]
    exact he

/-- C4 witness: with a body that leaves a verifiable state and then raises,
the wrapper still removes the patch and re-raises the body error after
verification passes. -/
theorem C4_finally_teardown_witness :
    (mock_remote_run [sA] body4).snd = .error "boom"
    ∧ (mock_remote_run [sA] body4).fst.patched = false := by
  have h := C4_finally_teardown [sA] body4
  exact ⟨h.2.2.2 "boom" rfl rfl, h.1⟩

/-- C8: `start` returns one channel per command flattened across the declared
sessions in order, begins with a fresh constructor-call counter, stores the
per-session generated mocks in declared order, and the patched constructor
call made after i earlier calls yields the generated mocks of the i-th
declared session (raising `StopIteration` past the end), advancing the
counter by one. -/
theorem C8_start_wiring (sessions : List Session) (st : RemoteState) (i : Nat)
    (hs : st.sessions = sessions.map Session.generate_mocks)
    (hi : st.client_calls = i) :
    (MockRemote.start sessions).snd
        = ((sessions.map Session.commands).flatten).map generateChannel
    ∧ (MockRemote.start sessions).fst.sessions = sessions.map Session.generate_mocks
    ∧ (MockRemote.start sessions).fst.client_calls = 0
    ∧ (SSHClient_instantiate st).toOption.map Prod.fst
        = (sessions[i]?).map Session.generate_mocks
    ∧ (∀ r st2, SSHClient_instantiate st = .ok (r, st2) →
        st2.client_calls = i + 1 ∧ st2.sessions = st.sessions) := by
  refine ⟨?_, rfl, rfl, ?_, ?_⟩
  · rw [List.map_flatten, List.map_map]
    rfl
  · unfold SSHClient_instantiate
    rw [hs, hi, List.getElem?_map]
    cases sessions[i]? with
    | none => rfl
    | some s => rfl
  · intro r2 st2 hinst
    unfold SSHClient_instantiate at hinst
    split at hinst
    · simp only [Except.ok.injEq, Prod.mk.injEq] at hinst
      obtain ⟨h1, h2⟩ := hinst
      subst h2
      exact ⟨by simp [hi], by simp⟩
    · simp at hinst

/-- C8 witness: on the state produced by `start [sA, sB]`, the first patched
constructor call yields the generated mocks of `sA`, and the constructor-call
counter starts at zero. -/
theorem C8_start_wiring_witness :
    (SSHClient_instantiate st8).toOption.map Prod.fst
        = ([sA, sB][0]?).map Session.generate_mocks
    ∧ (MockRemote.start [sA, sB]).fst.client_calls = 0 := by
  have h := C8_start_wiring [sA, sB] st8 0 rfl rfl
  exact ⟨h.2.2.2.1, h.2.2.1⟩
